import Mathlib

/-!
Verification of the MCP orchestration service (backend/mcp_service and
backend/tool_services) against its design specification.

The embedding is shallow: each Python function that the claims touch is
translated into an executable Lean definition over explicit state / explicit
environments.  External effects (the completion HTTP call, the subprocess,
the Gmail API) are modelled as explicit inputs describing the outcome of the
corresponding call; exception control flow is modelled with `Except` /
`Option` and explicit outcome types; the calls a pipeline makes are recorded
in an event trace so that claims about "which calls happen" are statable.
-/

namespace HQ

/-! ## Data model: completion-service content blocks and plans

The completion service's response JSON exposes a `content` array of typed
blocks (`text`, `tool_use{name,input}`, and other block types such as
images).  `generate_plan` in mcp_api.py scans this array for the first block
whose `type` field is `"tool_use"`. -/

/-- Tool arguments: a string-keyed mapping, as produced by the completion
service's `tool_use.input` and passed through to `call_tool`. -/
abbrev Args := List (String × String)

/-- A typed content block of a completion-service response or of a
`ToolInvocationResult`. `image` stands for any non-text, non-tool_use block
type. -/
inductive Content
  | text (s : String)
  | toolUse (name : String) (input : Args)
  | image (data : String)
deriving DecidableEq, Repr

/-- The `type` field of a content block, as tested by
`item.get("type") == "tool_use"` in generate_plan. -/
def Content.type : Content → String
  | .text _ => "text"
  | .toolUse _ _ => "tool_use"
  | .image _ => "image"

/-- Python attribute access `block.text`: only text-typed blocks carry a
`text` attribute; on any other block the access raises `AttributeError`
(modelled as `none`). -/
def Content.textAttr : Content → Option String
  | .text s => some s
  | _ => none

/-- The plan extracted from a tool_use block: `plan["name"]` and
`plan["input"]` as accessed by the chat endpoint. -/
structure Plan where
  name : String
  input : Args
deriving DecidableEq, Repr

/-- Outcome of the completion-service HTTP POST made by `generate_plan`:
either a response whose JSON carries a `content` array, or a timeout /
transport failure (an exception raised by the HTTP client). -/
inductive GatewayResult
  | ok (content : List Content)
  | timeout
  | transportError (msg : String)
deriving DecidableEq, Repr

/-- The loop in `generate_plan` (mcp_api.py lines 98-102): scan the content
array for the first block whose type is `"tool_use"`, `None` if there is
none. -/
def findToolUse : List Content → Option Content
  | [] => none
  | c :: rest => if c.type = "tool_use" then some c else findToolUse rest

/-- The `timeout=35.0` argument of the HTTP client constructed in
`generate_plan` (mcp_api.py line 79). -/
def generate_plan_timeout : Nat := 35

/-- The `timeout=35.0` argument of the HTTP client constructed in
`generate_user_response` (mcp_api.py line 130). -/
def generate_user_response_timeout : Nat := 35

/-- `generate_plan` (mcp_api.py lines 67-111), given the outcome of its
completion-service call.  On a successful response it returns the first
tool_use block as the plan, or `None` when the response has no tool_use
block; the surrounding `try/except Exception` catches every exception
(timeouts and transport errors included), prints it, and falls off the end
of the function, returning `None`.  `generate_plan` therefore always
returns and never raises. -/
def generate_plan : GatewayResult → Option Plan
  | .ok content =>
    match findToolUse content with
    | some (.toolUse n i) => some ⟨n, i⟩
    | _ => none
  | .timeout => none
  | .transportError _ => none

/-- Python exceptions that reach the chat endpoint's `except Exception`
handler and become the detail string of the HTTP 500 response. -/
inductive PyErr
  | typeError (msg : String)
  | indexError
  | attributeError (attr : String)
  | validationError
  | toolFailure (msg : String)
deriving DecidableEq, Repr

/-- Environment of one `/chat` request: the completion service's planning
response, the behaviour of `session.call_tool` (returning the `content`
list of the `ToolInvocationResult`, or raising), and the behaviour of
`generate_user_response` on (user_message, optional tool_result text);
`generate_user_response` also catches all its exceptions and returns
`None` on failure, hence the `Option` result. -/
structure Env where
  planResult : GatewayResult
  call_tool : String → Args → Except PyErr (List Content)
  respond : String → Option String → Option String

/-- The externally observable calls the chat pipeline makes. -/
inductive Event
  | planCall
  | toolCall (name : String) (input : Args)
  | respondCall (message : String) (tool_result : Option String)
deriving DecidableEq, Repr

/-- Result of one `/chat` request: a 200 with a response string, or an
HTTP 500 whose detail is the string of the caught exception. -/
inductive ChatOutcome
  | ok (response : String)
  | http500 (detail : PyErr)
deriving DecidableEq, Repr

/-- The `chat` endpoint (mcp_api.py lines 154-183), returning the trace of
calls it made together with its outcome.  Control flow mirrors the source:
`plan = generate_plan(message)`; if `plan` is `None`, `plan["name"]`
raises `TypeError` which the outer handler turns into a 500; if
`plan["name"] == "none"`, `generate_user_response(message, None)` is called
and its text returned; otherwise `session.call_tool(plan["name"],
plan["input"])` is invoked and `result.content[0].text` is extracted
(raising `IndexError` on an empty content list and `AttributeError` when
the first block has no `text` attribute), then
`generate_user_response(message, tool_result)` produces the answer.
A `None` from `generate_user_response` fails response-model validation,
also a 500. -/
def chat (env : Env) (message : String) : List Event × ChatOutcome :=
  match generate_plan env.planResult with
  | none =>
    ([.planCall], .http500 (.typeError "NoneType object is not subscriptable"))
  | some p =>
    if p.name = "none" then
      match env.respond message none with
      | some t => ([.planCall, .respondCall message none], .ok t)
      | none => ([.planCall, .respondCall message none], .http500 .validationError)
    else
      match env.call_tool p.name p.input with
      | .error e => ([.planCall, .toolCall p.name p.input], .http500 e)
      | .ok [] => ([.planCall, .toolCall p.name p.input], .http500 .indexError)
      | .ok (c :: _) =>
        match c.textAttr with
        | none =>
          ([.planCall, .toolCall p.name p.input], .http500 (.attributeError "text"))
        | some t =>
          match env.respond message (some t) with
          | some r =>
            ([.planCall, .toolCall p.name p.input, .respondCall message (some t)], .ok r)
          | none =>
            ([.planCall, .toolCall p.name p.input, .respondCall message (some t)],
              .http500 .validationError)

/-- Spec-side extraction for §4.4: "the first text content block of the
result is extracted as `tool_result`".  Stated from the specification's
words, for comparison with the code's `result.content[0].text`. -/
def firstTextBlock : List Content → Option String
  | [] => none
  | .text s :: _ => some s
  | _ :: rest => firstTextBlock rest

/-! ## Tool Registry Client: MCPClient.get_mcp_tools (mcp_client.py 45-58) -/

/-- A raw protocol tool entry as returned by `session.list_tools()`: the
fields read by `get_mcp_tools`.  The schema payload is kept opaque as a
string. -/
structure McpTool where
  name : String
  description : String
  inputSchema : String
deriving DecidableEq, Repr

/-- The dict built for each tool by the list comprehension in
`get_mcp_tools`. -/
structure ToolDescriptor where
  name : String
  description : String
  input_schema : String
deriving DecidableEq, Repr

/-- `MCPClient.get_mcp_tools` (mcp_client.py lines 45-58): a list
comprehension over `tools_result.tools`, mapping each raw entry to the
`{name, description, input_schema}` dict. -/
def get_mcp_tools (tools_result : List McpTool) : List ToolDescriptor :=
  tools_result.map fun t =>
    { name := t.name, description := t.description, input_schema := t.inputSchema }

/-! ## Transport Session lifecycle: MCPClient state, connect, cleanup
(mcp_client.py 12-74) and the FastAPI lifespan (mcp_api.py 29-40) -/

/-- The mutable state of an `MCPClient`: the async contexts currently held
by its `AsyncExitStack` (most recently entered first, as they will be
unwound), and the `session` attribute. Contexts are abstract ids. -/
structure ClientState where
  exit_stack : List Nat
  session : Option Nat
deriving DecidableEq, Repr

/-- Environment for closing: what exiting each async context does
(closing a context may itself raise). -/
structure CleanupEnv where
  closeCtx : Nat → Except String Unit

/-- A context being exited during `AsyncExitStack.aclose`. -/
inductive CloseEvent
  | closed (ctx : Nat)
deriving DecidableEq, Repr

/-- `AsyncExitStack.aclose` over the held contexts: unwinds every context
in LIFO order (all of them, even when one raises) and reports the
outermost error, if any. -/
def aclose (env : CleanupEnv) : List Nat → List CloseEvent × Option String
  | [] => ([], none)
  | c :: rest =>
    let r := env.closeCtx c
    let tail := aclose env rest
    (CloseEvent.closed c :: tail.1,
      match r with
      | .ok _ => tail.2
      | .error e => some e)

/-- The body of `MCPClient.cleanup` before its exception handler:
`await self.exit_stack.aclose()`, which empties the stack and may raise. -/
def cleanup_attempt (env : CleanupEnv) (s : ClientState) :
    ClientState × List CloseEvent × Option String :=
  let r := aclose env s.exit_stack
  ({ s with exit_stack := [] }, r.1, r.2)

/-- `MCPClient.cleanup` (mcp_client.py lines 60-64): runs `aclose` inside
`try/except Exception`, printing any error; it never propagates an
exception to its caller. -/
def cleanup (env : CleanupEnv) (s : ClientState) : ClientState × List CloseEvent :=
  let r := cleanup_attempt env s
  (r.1, r.2.1)

/-- The filesystem facts `connect_to_server` consults: `os.path.abspath`
and `os.path.exists`. -/
structure FS where
  abspath : String → String
  pathExists : String → Bool

/-- The startup-time failure raised by `connect_to_server` when the
resolved server script path does not exist (`FileNotFoundError`, the
design's ProcessLaunchError). -/
inductive ClientError
  | processLaunchError (path : String)
deriving DecidableEq, Repr

/-- Observable actions of `connect_to_server`: spawning the subprocess via
`stdio_client(StdioServerParameters(command, args=[path]))`, then creating
and initializing the `ClientSession`. -/
inductive ConnEvent
  | spawn (command : String) (path : String)
  | initSession
deriving DecidableEq, Repr

/-- `MCPClient.connect_to_server` (mcp_client.py lines 23-42): resolves the
script path with `os.path.abspath`, raises `FileNotFoundError` when the
resolved path does not exist — before any subprocess is spawned — and
otherwise spawns the stdio subprocess with command `"python"` and the
resolved absolute path, then initializes the session. -/
def connect_to_server (fs : FS) (server_script_path : String) :
    Except ClientError Unit × List ConnEvent :=
  let server_path := fs.abspath server_script_path
  if fs.pathExists server_path then
    (.ok (), [.spawn "python" server_path, .initSession])
  else
    (.error (.processLaunchError server_path), [])

/-- Observable phases of the service lifecycle. -/
inductive LifeEvent
  | connectCall
  | serve
  | cleanupCall
deriving DecidableEq, Repr

/-- How the service's lifecycle ended. -/
inductive LifeOutcome
  | completed
  | startupFailed (e : ClientError)
  | bodyFailed (msg : String)
deriving DecidableEq, Repr

/-- The FastAPI `lifespan` context manager (mcp_api.py lines 29-40):
`try: connect; yield; finally: try cleanup except print`.  `connectResult`
is the outcome of `connect_to_server`, `bodyResult` how the served body
(the `yield`) exits.  Whatever happens, the `finally` block runs
`mcp_client.cleanup()` (whose own errors are caught and printed), and a
startup failure propagates without the body ever running. -/
def lifespan (connectResult : Except ClientError Unit)
    (bodyResult : Except String Unit) : List LifeEvent × LifeOutcome :=
  match connectResult with
  | .error e => ([.connectCall, .cleanupCall], .startupFailed e)
  | .ok _ =>
    match bodyResult with
    | .error m => ([.connectCall, .serve, .cleanupCall], .bodyFailed m)
    | .ok _ => ([.connectCall, .serve, .cleanupCall], .completed)

/-- `async_main` (mcp_client.py lines 67-74): `try: connect except print;
finally: cleanup` — cleanup runs on every path here too, and a connect
error is printed rather than propagated. -/
def async_main (connectResult : Except ClientError Unit) : List LifeEvent :=
  match connectResult with
  | .error _ => [.connectCall, .cleanupCall]
  | .ok _ => [.connectCall, .serve, .cleanupCall]

/-! ## Email tool service (tool_services/email_service.py) -/

/-- First-match lookup in a string-keyed mapping (a Python dict access
`d[k]` succeeds iff the key is present). -/
def assoc : List (String × String) → String → Option String
  | [], _ => none
  | (k, v) :: rest, key => if k = key then some v else assoc rest key

/-- Python `str.lower()`: per-character lowercasing, written structurally
so that concrete instances evaluate. -/
def pyLower (s : String) : String := String.mk (s.data.map Char.toLower)

/-- `EmailService.get_contact_email` (email_service.py lines 114-115):
`self.contacts[input.lower()]` — the name is lowercased before the
directory lookup; a missing key raises `KeyError` (modelled as `.error`
carrying the missing key). -/
def get_contact_email (contacts : List (String × String)) (input : String) :
    Except String String :=
  match assoc contacts (pyLower input) with
  | some addr => .ok addr
  | none => .error (pyLower input)

/-- The loop body of `get_list_emails`: `self.contacts[email]` for each
entry, with the given casing unchanged; `KeyError` on the first absent
key. -/
def lookupAll (contacts : List (String × String)) : List String → Except String (List String)
  | [] => .ok []
  | e :: rest =>
    match assoc contacts e with
    | none => .error e
    | some addr => (lookupAll contacts rest).map (addr :: ·)

/-- `EmailService.get_list_emails` (email_service.py lines 117-124):
returns `None` when the input is `None` or empty (`if not input`),
otherwise looks every entry up verbatim (no lowercasing). -/
def get_list_emails (contacts : List (String × String)) :
    Option (List String) → Except String (Option (List String))
  | none => .ok none
  | some [] => .ok none
  | some (e :: rest) => (lookupAll contacts (e :: rest)).map some

/-- The Gmail API response consumed on success: `sent_message["id"]` and
`sent_message["threadId"]`. -/
structure GmailSendResult where
  id : String
  threadId : String
deriving DecidableEq, Repr

/-- Outcome of `EmailService.send_email`: the success dict, the error dict
built when an `HttpError` is caught, or an uncaught exception (the
`KeyError` from a failed contact lookup, which the handler — catching only
`HttpError` — lets propagate). -/
inductive EmailOutcome
  | success (message_id thread_id : String)
  | errorResult (msg : String)
  | raised (key : String)
deriving DecidableEq, Repr

/-- `EmailService.send_email` (email_service.py lines 57-112), with the
Gmail send call abstracted as its outcome `sendApi` (an `HttpError` or the
response dict).  Resolution order follows the source: `to` via
`get_contact_email`, then `bcc` via `get_list_emails`, then `cc`.  A
`KeyError` from any lookup is not caught (only `HttpError` is) and
propagates out of `send_email`. -/
def send_email (contacts : List (String × String))
    (sendApi : Except String GmailSendResult)
    («to» subject body : String) (cc bcc : Option (List String)) : EmailOutcome :=
  match get_contact_email contacts «to» with
  | .error k => .raised k
  | .ok _contact_email =>
    match get_list_emails contacts bcc with
    | .error k => .raised k
    | .ok _bcc_emails =>
      match get_list_emails contacts cc with
      | .error k => .raised k
      | .ok _cc_emails =>
        match sendApi with
        | .error e => .errorResult e
        | .ok r => .success r.id r.threadId

/-- Modelled from the spec: the tool server dispatch (`mcp_server.py`,
launched by `connect_to_server` but not present in the sources) that
exposes `send_email` as a protocol tool.  Per §4.2, `invoke_tool` "fails
with `ToolExecutionError` wrapping any protocol-reported failure", and per
§6 an absent symbolic recipient "is a `ToolExecutionError`
(address-not-found), not a fatal fault": an exception raised by the tool
implementation surfaces to the pipeline as a `ToolExecutionError`, while a
normal return becomes the text content of the `ToolInvocationResult`. -/
def send_email_tool (contacts : List (String × String))
    (sendApi : Except String GmailSendResult) (args : Args) :
    Except PyErr (List Content) :=
  match send_email contacts sendApi ((assoc args "to").getD "")
      ((assoc args "subject").getD "") ((assoc args "body").getD "") none none with
  | .raised k => .error (.toolFailure ("ToolExecutionError: KeyError " ++ k))
  | .errorResult e => .ok [.text ("status: error, error: " ++ e)]
  | .success mid tid =>
    .ok [.text ("status: success, message_id: " ++ mid ++ ", thread_id: " ++ tid)]

/-! ## Claims -/

/-- C1 as stated is false on the code: when the planning response carries
no tool-use block (and no explicit "none" selection), the planning step
does not fail — `generate_plan` returns `None`, i.e. an empty plan — and
the failure the pipeline surfaces is the `TypeError` raised by
subscripting that `None`, not a `PlanningError` raised by the planning
step.  Concrete input: a planning response whose content is a single text
block. -/
theorem C1_counterexample :
    generate_plan (GatewayResult.ok [Content.text "I cannot pick a tool"]) = none ∧
    chat { planResult := GatewayResult.ok [Content.text "I cannot pick a tool"],
           call_tool := fun _ _ => Except.ok [],
           respond := fun _ _ => some "r" } "What is the capital of France?"
      = ([Event.planCall],
         ChatOutcome.http500 (PyErr.typeError "NoneType object is not subscriptable")) := by
  decide

/-- C1 amended: when the planning response contains no tool-use block,
`generate_plan` returns `None` (an empty plan — no `PlanningError` is
raised at the planning step); the pipeline then fails with an HTTP 500
whose detail is the `TypeError` from subscripting the `None` plan, and the
trace shows it never calls `respond` or any tool — the failure is
surfaced and no default "none" tool is substituted, but via a generic
`TypeError`, not a `PlanningError`. -/
theorem C1_no_tool_use_block (env : Env) (msg : String) (content : List Content)
    (henv : env.planResult = GatewayResult.ok content)
    (hfind : findToolUse content = none) :
    generate_plan env.planResult = none ∧
    chat env msg
      = ([Event.planCall],
         ChatOutcome.http500 (PyErr.typeError "NoneType object is not subscriptable")) := by
  have hplan : generate_plan env.planResult = none := by
    simp [generate_plan, henv, hfind]
  exact ⟨hplan, by simp [chat, hplan]⟩

/-- Witness for `C1_no_tool_use_block` at a concrete environment. -/
theorem C1_no_tool_use_block_witness :
    chat { planResult := GatewayResult.ok [Content.text "I cannot pick a tool"],
           call_tool := fun _ _ => Except.ok [],
           respond := fun _ _ => some "r" } "hello"
      = ([Event.planCall],
         ChatOutcome.http500 (PyErr.typeError "NoneType object is not subscriptable")) :=
  (C1_no_tool_use_block
    { planResult := GatewayResult.ok [Content.text "I cannot pick a tool"],
      call_tool := fun _ _ => Except.ok [],
      respond := fun _ _ => some "r" } "hello"
    [Content.text "I cannot pick a tool"] rfl (by decide)).2

/-- C2: when the plan names the tool "none", the pipeline's trace is
exactly `[planCall, respondCall message None]` — `respond(user_message,
None)` is called exactly once and no tool is ever invoked — and whenever
that respond call produces a text, the final answer equals that text. -/
theorem C2_direct_response (env : Env) (msg : String) (p : Plan)
    (hp : generate_plan env.planResult = some p) (hname : p.name = "none") :
    (chat env msg).1 = [Event.planCall, Event.respondCall msg none] ∧
    ∀ t, env.respond msg none = some t → (chat env msg).2 = ChatOutcome.ok t := by
  constructor
  · cases h : env.respond msg none <;> simp [chat, hp, hname, h]
  · intro t ht
    simp [chat, hp, hname, ht]

/-- Witness for `C2_direct_response`: a planning response selecting
"none" leads to a direct answer equal to the respond text. -/
theorem C2_direct_response_witness :
    (chat { planResult := GatewayResult.ok [Content.toolUse "none" []],
            call_tool := fun _ _ => Except.ok [],
            respond := fun _ _ => some "direct answer" } "hello").2
      = ChatOutcome.ok "direct answer" :=
  (C2_direct_response
    { planResult := GatewayResult.ok [Content.toolUse "none" []],
      call_tool := fun _ _ => Except.ok [],
      respond := fun _ _ => some "direct answer" } "hello"
    ⟨"none", []⟩ (by decide) rfl).2 "direct answer" rfl

/-- C4 as stated is false on the code: when the completion service times
out during planning, `generate_plan` catches the exception and returns
`None` — the call does not fail with a `GatewayUnavailableError` — and
the pipeline aborts with a 500 whose detail is the `TypeError` from
subscripting `None`, not the gateway failure.  (No tool is invoked, which
is the part of the claim that does hold.) -/
theorem C4_counterexample :
    generate_plan GatewayResult.timeout = none ∧
    chat { planResult := GatewayResult.timeout,
           call_tool := fun _ _ => Except.ok [],
           respond := fun _ _ => some "r" } "send the report"
      = ([Event.planCall],
         ChatOutcome.http500 (PyErr.typeError "NoneType object is not subscriptable")) := by
  decide

/-- C4 amended: both completion-gateway calls carry a hard timeout of 35
time-units; when the completion service times out (or the transport
fails) during `plan`, `generate_plan` swallows the exception and returns
`None`, and the pipeline aborts with a 500 `TypeError` — the gateway
failure itself is not surfaced — with a trace of `[planCall]` only, so
no tool is invoked. -/
theorem C4_timeout_behaviour (env : Env) (msg : String)
    (h : env.planResult = GatewayResult.timeout) :
    generate_plan_timeout = 35 ∧
    generate_user_response_timeout = 35 ∧
    generate_plan env.planResult = none ∧
    chat env msg
      = ([Event.planCall],
         ChatOutcome.http500 (PyErr.typeError "NoneType object is not subscriptable")) := by
  have hplan : generate_plan env.planResult = none := by
    simp [generate_plan, h]
  exact ⟨rfl, rfl, hplan, by simp [chat, hplan]⟩

/-- Witness for `C4_timeout_behaviour` at a concrete environment. -/
theorem C4_timeout_behaviour_witness :
    chat { planResult := GatewayResult.timeout,
           call_tool := fun _ _ => Except.ok [Content.text "t"],
           respond := fun _ _ => some "r" } "hi"
      = ([Event.planCall],
         ChatOutcome.http500 (PyErr.typeError "NoneType object is not subscriptable")) :=
  (C4_timeout_behaviour
    { planResult := GatewayResult.timeout,
      call_tool := fun _ _ => Except.ok [Content.text "t"],
      respond := fun _ _ => some "r" } "hi" rfl).2.2.2

/-- C5: `get_mcp_tools` produces one ToolDescriptor per raw protocol tool
entry, in exactly the order received from the session: the lengths agree
and, at every index, the descriptor is built from the raw entry at the
same index (so nothing is reordered, inserted, or dropped). -/
theorem C5_list_tools_order (ts : List McpTool) (i : Nat) :
    (get_mcp_tools ts).length = ts.length ∧
    (get_mcp_tools ts)[i]?
      = ts[i]?.map (fun t =>
          { name := t.name, description := t.description,
            input_schema := t.inputSchema : ToolDescriptor }) := by
  constructor
  · simp [get_mcp_tools]
  · simp [get_mcp_tools]

/-- C3 as stated is false on the code: the chat endpoint extracts
`result.content[0].text`, the `text` attribute of the *first* content
block, not the first *text-typed* block.  Concrete input: a tool result
whose content is an image block followed by a text block — the spec-side
extraction (`firstTextBlock`) yields the text, but the pipeline fails with
a 500 whose detail is the `AttributeError` from reading `.text` off the
image block (not a `ToolExecutionError`), and `respond` is never
called. -/
theorem C3_counterexample :
    firstTextBlock [Content.image "chart-bytes", Content.text "42 unread emails"]
      = some "42 unread emails" ∧
    chat { planResult := GatewayResult.ok [Content.toolUse "get_emails" [("count", "5")]],
           call_tool := fun _ _ =>
             Except.ok [Content.image "chart-bytes", Content.text "42 unread emails"],
           respond := fun _ _ => some "You have 42 unread emails" } "check my email"
      = ([Event.planCall, Event.toolCall "get_emails" [("count", "5")]],
         ChatOutcome.http500 (PyErr.attributeError "text")) := by
  decide

/-- C3 amended: for every plan naming a real tool, the pipeline invokes
the tool with exactly the planned name and arguments (the trace always
begins `[planCall, toolCall plan.name plan.input]`); it extracts the
`text` attribute of the *first* content block of the result as
`tool_result` and passes it to `respond`, whose text becomes the final
answer; and when the result's content is empty, or its first block is not
text-typed, the request fails with a 500 carrying the `IndexError` /
`AttributeError` respectively (not a `ToolExecutionError`). -/
theorem C3_tool_invocation (env : Env) (msg : String) (p : Plan)
    (hp : generate_plan env.planResult = some p) (hname : p.name ≠ "none") :
    (chat env msg).1.take 2 = [Event.planCall, Event.toolCall p.name p.input] ∧
    (∀ t rest r, env.call_tool p.name p.input = Except.ok (Content.text t :: rest) →
      env.respond msg (some t) = some r →
      chat env msg
        = ([Event.planCall, Event.toolCall p.name p.input,
            Event.respondCall msg (some t)], ChatOutcome.ok r)) ∧
    (env.call_tool p.name p.input = Except.ok [] →
      (chat env msg).2 = ChatOutcome.http500 PyErr.indexError) ∧
    (∀ c rest, env.call_tool p.name p.input = Except.ok (c :: rest) →
      c.textAttr = none →
      (chat env msg).2 = ChatOutcome.http500 (PyErr.attributeError "text")) := by
  refine ⟨?_, ?_, ?_, ?_⟩
  · cases htool : env.call_tool p.name p.input with
    | error e => simp [chat, hp, hname, htool]
    | ok content =>
      cases content with
      | nil => simp [chat, hp, hname, htool]
      | cons c rest =>
        cases hattr : c.textAttr with
        | none => simp [chat, hp, hname, htool, hattr]
        | some t =>
          cases hr : env.respond msg (some t) <;>
            simp [chat, hp, hname, htool, hattr, hr]
  · intro t rest r htool hr
    simp [chat, hp, hname, htool, Content.textAttr, hr]
  · intro htool
    simp [chat, hp, hname, htool]
  · intro c rest htool hattr
    simp [chat, hp, hname, htool, hattr]

/-- Witness for `C3_tool_invocation`: a real tool invoked with the planned
name and arguments, whose first content block is text, flows through to
the respond text as the final answer. -/
theorem C3_tool_invocation_witness :
    chat { planResult := GatewayResult.ok [Content.toolUse "get_emails" [("count", "5")]],
           call_tool := fun _ _ => Except.ok [Content.text "5 unread emails"],
           respond := fun _ _ => some "You have 5 unread emails" } "check my email"
      = ([Event.planCall, Event.toolCall "get_emails" [("count", "5")],
          Event.respondCall "check my email" (some "5 unread emails")],
         ChatOutcome.ok "You have 5 unread emails") :=
  ((C3_tool_invocation
    { planResult := GatewayResult.ok [Content.toolUse "get_emails" [("count", "5")]],
      call_tool := fun _ _ => Except.ok [Content.text "5 unread emails"],
      respond := fun _ _ => some "You have 5 unread emails" } "check my email"
    ⟨"get_emails", [("count", "5")]⟩ (by decide) (by decide)).2.1)
    "5 unread emails" [] "You have 5 unread emails" rfl rfl

/-- C6: `cleanup` on an already-cleaned client is idempotent — the state
is unchanged and no context is closed again — and it never throws: the
first call catches every exception by construction (its result type has no
error channel), and on the already-cleaned state even the raw
`exit_stack.aclose()` attempt reports no error, for any closing behaviour
of the held contexts and any starting state (initialization completed or
not).  Since the second call returns the same state, every further
repeated call behaves identically. -/
theorem C6_cleanup_idempotent (env : CleanupEnv) (s : ClientState) :
    cleanup env (cleanup env s).1 = ((cleanup env s).1, []) ∧
    (cleanup_attempt env (cleanup env s).1).2.2 = none := by
  simp [cleanup, cleanup_attempt, aclose]

/-- C7: on every exit path of the service lifecycle — normal completion,
a body fault, or a startup failure — the `finally` block runs
`mcp_client.cleanup()`: the cleanup call is present in, and is the last
event of, every lifespan trace; the standalone `async_main` runner
likewise cleans up on every path. -/
theorem C7_shutdown_always_runs (c : Except ClientError Unit) (b : Except String Unit) :
    LifeEvent.cleanupCall ∈ (lifespan c b).1 ∧
    (lifespan c b).1.getLast? = some LifeEvent.cleanupCall ∧
    LifeEvent.cleanupCall ∈ async_main c := by
  cases c <;> cases b <;> simp [lifespan, async_main]

/-- C8: `connect_to_server` resolves the script path to an absolute path
and, whenever the resolved path does not exist, fails with the
process-launch error (`FileNotFoundError`, the design's
`ProcessLaunchError`) carrying that absolute path, with an empty action
trace — no subprocess was spawned, so none can be orphaned; feeding that
failure into the lifespan, the service's trace is
`[connectCall, cleanupCall]`: it never reaches the serve phase, and
cleanup still runs. -/
theorem C8_missing_path (fs : FS) (p : String)
    (h : fs.pathExists (fs.abspath p) = false) :
    connect_to_server fs p
      = (Except.error (ClientError.processLaunchError (fs.abspath p)), []) ∧
    ∀ b, lifespan (connect_to_server fs p).1 b
      = ([LifeEvent.connectCall, LifeEvent.cleanupCall],
         LifeOutcome.startupFailed (ClientError.processLaunchError (fs.abspath p))) := by
  have hc : connect_to_server fs p
      = (Except.error (ClientError.processLaunchError (fs.abspath p)), []) := by
    simp [connect_to_server, h]
  exact ⟨hc, fun b => by rw [hc]; rfl⟩

/-- Witness for `C8_missing_path` at a concrete filesystem where the
resolved path is absent. -/
theorem C8_missing_path_witness :
    connect_to_server
      { abspath := fun _ => "/srv/app/mcp_server.py", pathExists := fun _ => false }
      "mcp_server.py"
      = (Except.error (ClientError.processLaunchError "/srv/app/mcp_server.py"), []) :=
  (C8_missing_path
    { abspath := fun _ => "/srv/app/mcp_server.py", pathExists := fun _ => false }
    "mcp_server.py" rfl).1

/-- C9: a `send_email` invocation whose (lowercased) recipient name is
absent from the contact directory raises the lookup `KeyError`, which the
modelled tool server surfaces to the pipeline as a `ToolExecutionError`;
the chat pipeline then aborts with a single 500 carrying that error, its
trace is exactly `[planCall, toolCall "send_email" args]` — no `respond`
call is ever made — for every contact directory, recipient, subject, body
and respond behaviour. -/
theorem C9_unknown_recipient (contacts : List (String × String))
    (api : Except String GmailSendResult) («to» subject body msg : String)
    (respond : String → Option String → Option String)
    (h : assoc contacts (pyLower «to») = none) :
    send_email contacts api «to» subject body none none
      = EmailOutcome.raised (pyLower «to») ∧
    chat { planResult := GatewayResult.ok
             [Content.toolUse "send_email"
               [("to", «to»), ("subject", subject), ("body", body)]],
           call_tool := fun _ a => send_email_tool contacts api a,
           respond := respond } msg
      = ([Event.planCall,
          Event.toolCall "send_email" [("to", «to»), ("subject", subject), ("body", body)]],
         ChatOutcome.http500
           (PyErr.toolFailure ("ToolExecutionError: KeyError " ++ (pyLower «to»)))) := by
  have hsend : send_email contacts api «to» subject body none none
      = EmailOutcome.raised (pyLower «to») := by
    simp [send_email, get_contact_email, h]
  refine ⟨hsend, ?_⟩
  have htool : send_email_tool contacts api
      [("to", «to»), ("subject", subject), ("body", body)]
      = Except.error (PyErr.toolFailure ("ToolExecutionError: KeyError " ++ (pyLower «to»))) := by
    simp [send_email_tool, assoc, hsend]
  have hplan : generate_plan (GatewayResult.ok
      [Content.toolUse "send_email" [("to", «to»), ("subject", subject), ("body", body)]])
      = some ⟨"send_email", [("to", «to»), ("subject", subject), ("body", body)]⟩ := by
    simp [generate_plan, findToolUse, Content.type]
  simp [chat, hplan, htool]

/-- Witness for `C9_unknown_recipient`: recipient "bob" absent from a
directory holding only "alice". -/
theorem C9_unknown_recipient_witness :
    send_email [("alice", "alice@example.com")] (Except.ok ⟨"m1", "t1"⟩)
      "bob" "report" "the report is ready" none none
      = EmailOutcome.raised "bob" := by
  have h := (C9_unknown_recipient [("alice", "alice@example.com")]
    (Except.ok ⟨"m1", "t1"⟩) "bob" "report" "the report is ready" "Email bob"
    (fun _ _ => some "r") (by decide)).1
  rw [h]
  decide

/-- C10: recipient resolution is case-insensitive only for the primary
`to` field — `get_contact_email` lowercases the name before the directory
lookup, while `get_list_emails` looks each cc/bcc entry up with its given
casing unchanged — so a name that differs from a directory key only in
case resolves as `to` but raises `KeyError` as a cc/bcc entry; in a single
`send_email` call with that name as both `to` and a bcc entry, the `to`
lookup succeeds and the bcc lookup raises. -/
theorem C10_case_sensitivity (contacts : List (String × String))
    (name addr subject body : String) (api : Except String GmailSendResult)
    (hlow : assoc contacts (pyLower name) = some addr)
    (hverbatim : assoc contacts name = none) :
    get_contact_email contacts name = Except.ok addr ∧
    get_list_emails contacts (some [name]) = Except.error name ∧
    send_email contacts api name subject body none (some [name])
      = EmailOutcome.raised name := by
  have hget : get_contact_email contacts name = Except.ok addr := by
    simp [get_contact_email, hlow]
  have hlist : get_list_emails contacts (some [name]) = Except.error name := by
    simp [get_list_emails, lookupAll, hverbatim, Except.map]
  exact ⟨hget, hlist, by simp [send_email, hget, hlist]⟩

/-- Witness for `C10_case_sensitivity`: "Alice" differs from the directory
key "alice" only in case — it resolves as `to` but fails as a bcc
entry. -/
theorem C10_case_sensitivity_witness :
    get_contact_email [("alice", "alice@example.com")] "Alice"
      = Except.ok "alice@example.com" ∧
    get_list_emails [("alice", "alice@example.com")] (some ["Alice"])
      = Except.error "Alice" ∧
    send_email [("alice", "alice@example.com")] (Except.ok ⟨"m1", "t1"⟩)
      "Alice" "hi" "hello" none (some ["Alice"])
      = EmailOutcome.raised "Alice" :=
  C10_case_sensitivity [("alice", "alice@example.com")] "Alice" "alice@example.com"
    "hi" "hello" (Except.ok ⟨"m1", "t1"⟩) (by decide) (by decide)

end HQ
